import Mathlib

/-!
# Verification of the text-preprocessing report dashboard

A shallow embedding of the data-aggregation layer of `streamlit_app.py`:
the dataset loader, the per-row token counters, the corpus-level
aggregates (averages, trigger rates, top-terms table) and the download
page.  Python/pandas semantics are modelled explicitly: a missing cell
(`NaN`) is `Option.none`, `str.split()` splits on whitespace runs,
`Series.mean()` of an empty series is `NaN`, and text-mode file reads
apply universal-newline translation.
-/

namespace Dashboard

/-- Whitespace tokenizer over a character list: `acc` holds the current
word (reversed); a whitespace character ends the word, and empty pieces
are discarded. -/
def wsTokensAux (acc : List Char) : List Char → List (List Char)
  | [] => if acc.isEmpty then [] else [acc.reverse]
  | c :: rest =>
    if c.isWhitespace then
      if acc.isEmpty then wsTokensAux [] rest
      else acc.reverse :: wsTokensAux [] rest
    else wsTokensAux (c :: acc) rest

/-- Python `str.split()` (no arguments): split on runs of whitespace,
discarding empty pieces.  Used by pandas `.str.split()` with no pattern. -/
def pySplit (s : String) : List String :=
  (wsTokensAux [] s.data).map String.mk

/-- A dataset cell: `none` models a pandas `NaN` (absent value). -/
abbrev Cell? := Option String

/-- One row of the loaded CSV, restricted to the two text fields that the
statistics code reads (`original_selftext`, `tokens_stemmed`). -/
structure PostRecord where
  original_selftext : Cell?
  tokens_stemmed : Cell?
deriving DecidableEq, Repr

/-- Line 165: `df['original_selftext'].fillna('').str.split().str.len()`,
per row.  `fillna('')` turns an absent cell into the empty string, so the
result is always a number. -/
def original_tokens (c : Cell?) : Nat :=
  (pySplit (c.getD "")).length

/-- Line 166: `df['tokens_stemmed'].str.split().str.len()`, per row.
There is no `fillna`, so an absent cell propagates as `NaN` (`none`). -/
def processed_tokens (c : Cell?) : Option Nat :=
  c.map (fun s => (pySplit s).length)

/-- pandas `Series.mean()`: the mean of the non-null values; `NaN`
(`none`) when there are no non-null values (in particular on an empty
series — there is no division-by-zero guard in the source). -/
def seriesMean (xs : List (Option Nat)) : Option ℚ :=
  let vs := xs.filterMap id
  if vs.isEmpty then none else some ((vs.sum : ℚ) / vs.length)

/-- Line 178: `avg_original = df['original_tokens'].mean()`. -/
def avg_original (records : List PostRecord) : Option ℚ :=
  seriesMean (records.map (fun r => some (original_tokens r.original_selftext)))

/-- Line 179: `avg_processed = df['processed_tokens'].mean()`. -/
def avg_processed (records : List PostRecord) : Option ℚ :=
  seriesMean (records.map (fun r => processed_tokens r.tokens_stemmed))

/-- Lines 194–199: the `preprocessing_stats` dictionary.  It is a literal
constant; it does not read the loaded dataset (the parameter is unused,
mirroring that independence).  Percentages are represented exactly as an
integer number of tenths of a percent: `47.2` is `472`. -/
def preprocessing_stats (_df : List PostRecord) : List (String × Nat) :=
  [("Contractions", 472), ("Numbers", 467),
   ("Excessive Punctuation", 188), ("URLs", 18)]

/-- Lines 223–228: the `word_freq` dictionary.  Also a literal constant,
independent of the loaded dataset. -/
def word_freq (_df : List PostRecord) : List (String × Nat) :=
  [("anxiety", 1447), ("feel", 1367), ("like", 1182), ("num", 1009),
   ("get", 754), ("know", 678), ("real", 612), ("want", 553),
   ("time", 537), ("think", 500), ("work", 480), ("would", 477),
   ("thing", 460), ("day", 457), ("help", 433)]

/-! ## Trigger detection (spec §4.3)

The detection predicates themselves are not in the source (the spec notes
the percentages are baked-in constants); they are modelled from the
spec's contract so the reported constants can be compared with the
computed rates. -/

/-- `true` iff `pat` occurs as a contiguous subsequence of the list. -/
def hasSubSeq (pat : List Char) : List Char → Bool
  | [] => pat.isEmpty
  | c :: rest => pat.isPrefixOf (c :: rest) || hasSubSeq pat rest

/-- Modelled from the spec: the "contractions" detection predicate
(presence of a contraction pattern in the original text); the concrete
pattern set is a configuration choice the source does not fix. -/
def containsContraction (s : String) : Bool :=
  ["n't", "'m", "'s", "'re", "'ve", "'ll", "'d"].any
    (fun p => hasSubSeq p.data s.data)

/-- Modelled from the spec: the "numbers" detection predicate (presence
of a digit sequence in the original text). -/
def containsNumber (s : String) : Bool :=
  s.data.any Char.isDigit

/-- Modelled from the spec: per-category aggregation
`100 * matchingRowCount / totalRowCount`, rounded to one decimal place
(half up), over the rows' original texts (absent text treated as empty).
The percentage is represented exactly as an integer number of tenths of
a percent, so `50.0%` is `500`:
`⌊(100 * m / n) * 10 + 1/2⌋ = (2000 * m + n) / (2 * n)`. -/
def triggerRateTenths (pred : String → Bool) (texts : List Cell?) : Nat :=
  let m := texts.countP (fun c => pred (c.getD "") = true)
  (2000 * m + texts.length) / (2 * texts.length)

/-! ## Frequency-table builder (spec §4.4) -/

/-- Add one occurrence of term `t` to an association list of counts,
keeping keys unique. -/
def addCount : List (String × Nat) → String → List (String × Nat)
  | [], t => [(t, 1)]
  | (s, c) :: rest, t =>
    if s = t then (s, c + 1) :: rest else (s, c) :: addCount rest t

/-- Accumulate a term-to-count mapping over all records' token sequences. -/
def countTerms (seqs : List (List String)) : List (String × Nat) :=
  seqs.foldl (fun m seq => seq.foldl addCount m) []

/-- Strict lexicographic order on character lists, by code point. -/
def lexLt : List Char → List Char → Bool
  | [], [] => false
  | [], _ :: _ => true
  | _ :: _, [] => false
  | a :: as, b :: bs =>
    if a.toNat < b.toNat then true
    else if b.toNat < a.toNat then false
    else lexLt as bs

/-- The output order of the frequency table: descending count, ties
broken by ascending lexicographic term order. -/
def termOrder (a b : String × Nat) : Bool :=
  decide (b.2 < a.2) || (a.2 == b.2 && (lexLt a.1.data b.1.data || a.1 == b.1))

/-- Insert into a list sorted by `le`. -/
def insertBy (le : α → α → Bool) (x : α) : List α → List α
  | [] => [x]
  | y :: ys => if le x y then x :: y :: ys else y :: insertBy le x ys

/-- Insertion sort by `le`. -/
def sortBy (le : α → α → Bool) : List α → List α
  | [] => []
  | x :: xs => insertBy le x (sortBy le xs)

/-- Modelled from the spec: top-`n` terms by global frequency —
accumulate counts, order by descending count with alphabetical
tie-break, take the first `n`. -/
def buildTopTerms (n : Nat) (seqs : List (List String)) : List (String × Nat) :=
  (sortBy termOrder (countTerms seqs)).take n

/-- `true` iff consecutive elements are ordered by `le`. -/
def sortedByB (le : α → α → Bool) : List α → Bool
  | [] => true
  | [_] => true
  | a :: b :: rest => le a b && sortedByB le (b :: rest)

/-! ## The derived metrics snapshot -/

/-- The `CorpusMetrics` snapshot of the spec, as the code actually
produces it: the averages come from the pandas means (possibly `NaN`),
while the trigger rates (tenths of a percent) and the top-terms table
are the literal constants of lines 194–199 and 223–228. -/
structure CorpusMetrics where
  postCount : Nat
  avgOriginalTokens : Option ℚ
  avgProcessedTokens : Option ℚ
  triggerRates : List (String × Nat)
  topTerms : List (String × Nat)
deriving DecidableEq, Repr

/-- Derivation of the metrics snapshot from the loaded records, exactly
as the script computes the displayed values. -/
def computeMetrics (records : List PostRecord) : CorpusMetrics :=
  { postCount := records.length
    avgOriginalTokens := avg_original records
    avgProcessedTokens := avg_processed records
    triggerRates := preprocessing_stats records
    topTerms := word_freq records }

/-! ## Dataset loading (spec §4.1)

`load_data` (lines 21–26) is `pd.read_csv('data/anxiety_preprocessed.csv')`;
the CSV parser itself is not part of the repository, so its contract is
modelled from the spec. -/

/-- A raw tabular file: a header row of column names and data rows of
cells (`none` is an empty/missing cell, parsed by pandas as `NaN`). -/
structure CsvFile where
  header : List String
  rows : List (List Cell?)
deriving DecidableEq, Repr

/-- The typed load failures of the spec (§7). -/
inductive LoadError where
  | dataUnavailable
  | dataMalformed
deriving DecidableEq, Repr

/-- Read the cell of the named column from a row; a missing text field
is tolerated as an absent value rather than an error. -/
def lookupCell (header : List String) (row : List Cell?) (c : String) : Cell? :=
  match header.findIdx? (fun c0 => c0 = c) with
  | some i => row.getD i none
  | none => none

/-- Build one `PostRecord` from a raw row using the header. -/
def toRecord (header : List String) (row : List Cell?) : PostRecord :=
  { original_selftext := lookupCell header row "original_selftext"
    tokens_stemmed := lookupCell header row "tokens_stemmed" }

/-- Modelled from the spec: the dataset loader `load_data`
(`pd.read_csv`, whose parser is not in the repository).  `none` models a
missing/unreadable file; a row whose cell count differs from the header
fails to parse as tabular data.  Both fail with `DataUnavailable`; on
success the rows are returned in file order. -/
def load_data (file : Option CsvFile) : Except LoadError (List PostRecord) :=
  match file with
  | none => Except.error LoadError.dataUnavailable
  | some f =>
    if f.rows.all (fun r => r.length = f.header.length) then
      Except.ok (f.rows.map (toRecord f.header))
    else
      Except.error LoadError.dataUnavailable

/-- The metrics pipeline: load, then derive the snapshot.  A load
failure propagates; no partial snapshot is produced. -/
def runApp (file : Option CsvFile) : Except LoadError CorpusMetrics :=
  (load_data file).map computeMetrics

/-! ## Download page (lines 313–357)

Both buttons read `data/anxiety_preprocessed.csv` with `open(path, 'r')`
in text mode, so the Python runtime applies universal-newline
translation to the bytes on disk; the on-disk content is modelled as the
character sequence of the file. -/

/-- Universal-newline translation of Python text mode: `\r\n` and a lone
`\r` both become `\n`. -/
def universalNewlines : List Char → List Char
  | [] => []
  | [c] => if c = '\r' then ['\n'] else [c]
  | c :: d :: rest =>
    if c = '\r' then
      if d = '\n' then '\n' :: universalNewlines rest
      else '\n' :: universalNewlines (d :: rest)
    else c :: universalNewlines (d :: rest)

/-- `open(path, 'r').read()`: the file content after universal-newline
translation. -/
def pyTextRead (onDisk : String) : String :=
  String.mk (universalNewlines onDisk.data)

/-- A download button's offer: a fixed file name and the served data. -/
structure DownloadArtifact where
  fileName : String
  data : String
deriving DecidableEq, Repr

/-- Lines 324–333: the first button reads the CSV in text mode and
serves it as `anxiety_preprocessed.csv`. -/
def csvDownload (onDisk : String) : DownloadArtifact :=
  { fileName := "anxiety_preprocessed.csv", data := pyTextRead onDisk }

/-- Lines 348–357: the second button reads the same file
`data/anxiety_preprocessed.csv` in text mode and serves it as
`preprocessing_report.txt`. -/
def reportDownload (onDisk : String) : DownloadArtifact :=
  { fileName := "preprocessing_report.txt", data := pyTextRead onDisk }

/-- The download page, given the on-disk content of
`data/anxiety_preprocessed.csv`: both artifacts it offers. -/
def downloadPage (onDisk : String) : DownloadArtifact × DownloadArtifact :=
  (csvDownload onDisk, reportDownload onDisk)

/-! ## The in-memory table and the token-column assignment (lines 165–166)

The Statistics page writes two derived columns into the loaded
dataframe; this models the table and pandas column assignment so that
the frame condition of that write can be stated. -/

/-- A cell of the in-memory table: absent (`NaN`), text, or a number
(the token counts written by lines 165–166). -/
inductive DfCell where
  | na
  | str (s : String)
  | num (n : Nat)
deriving DecidableEq, Repr

/-- The text content of a cell, `none` for `NaN` or numeric cells. -/
def DfCell.text? : DfCell → Cell?
  | DfCell.str s => some s
  | _ => none

/-- The loaded table: named columns and rows of cells. -/
structure DataFrame where
  columns : List String
  rows : List (List DfCell)
deriving DecidableEq, Repr

/-- The position of a named column, `none` when absent. -/
def colIdx (cols : List String) (c : String) : Option Nat :=
  match cols with
  | [] => none
  | c0 :: rest => if c0 = c then some 0 else (colIdx rest c).map (· + 1)

/-- The cell of the named column in one row (`NaN` when out of range). -/
def rowCell (cols : List String) (r : List DfCell) (c : String) : DfCell :=
  match colIdx cols c with
  | some i => r.getD i DfCell.na
  | none => DfCell.na

/-- Column assignment `df[c] = <row-wise series>`: pandas overwrites the
column in place when it already exists and appends a new column at the
right end otherwise. -/
def DataFrame.assignCol (df : DataFrame) (c : String) (f : List DfCell → DfCell) : DataFrame :=
  match colIdx df.columns c with
  | some i => { columns := df.columns, rows := df.rows.map (fun r => r.set i (f r)) }
  | none => { columns := df.columns ++ [c], rows := df.rows.map (fun r => r ++ [f r]) }

/-- A named column as a list of cells, `none` when the column is absent. -/
def DataFrame.getCol? (df : DataFrame) (c : String) : Option (List DfCell) :=
  (colIdx df.columns c).map (fun i => df.rows.map (fun r => r.getD i DfCell.na))

/-- The `original_tokens` cell for one row (line 165): the token count
of the `original_selftext` cell, with `fillna('')`. -/
def origTokCell (cols : List String) (r : List DfCell) : DfCell :=
  DfCell.num (original_tokens (rowCell cols r "original_selftext").text?)

/-- The `processed_tokens` cell for one row (line 166): the token count
of the `tokens_stemmed` cell, without `fillna` — an absent cell yields
`NaN`. -/
def procTokCell (cols : List String) (r : List DfCell) : DfCell :=
  match processed_tokens (rowCell cols r "tokens_stemmed").text? with
  | some n => DfCell.num n
  | none => DfCell.na

/-- Lines 165–166: the token-count columns written by the Statistics
page, as two successive pandas column assignments. -/
def addTokenColumns (df : DataFrame) : DataFrame :=
  let df1 := df.assignCol "original_tokens" (origTokCell df.columns)
  df1.assignCol "processed_tokens" (procTokCell df1.columns)

/-! ## Concrete test data -/

/-- The spec's 2-row scenario dataset (§8): original texts
`"I don't know"` and `"I have 3 cats"`, stemmed tokens `"know"` and
`"cat"`. -/
def scenarioRecords : List PostRecord :=
  [{ original_selftext := some "I don't know", tokens_stemmed := some "know" },
   { original_selftext := some "I have 3 cats", tokens_stemmed := some "cat" }]

/-- A small concrete loaded table used to witness the frame theorems. -/
def sampleDf : DataFrame :=
  { columns := ["original_selftext", "tokens_stemmed"]
    rows := [[DfCell.str "I don't know", DfCell.str "know"],
             [DfCell.str "I have 3 cats", DfCell.str "cat"]] }

end Dashboard

namespace Dashboard

example : pySplit "I have 3 cats" = ["I", "have", "3", "cats"] := by decide
example : original_tokens none = 0 := by decide
example : processed_tokens none = none := by decide
example : avg_original [] = none := by decide
example : containsContraction "I don't know" = true := by decide
example : containsContraction "I have 3 cats" = false := by decide
example : triggerRateTenths containsContraction [some "I don't know", some "I have 3 cats"] = 500 := by decide
example : triggerRateTenths containsNumber [some "I don't know", some "I have 3 cats"] = 500 := by decide
example : buildTopTerms 15 [["know"], ["cat"]] = [("cat", 1), ("know", 1)] := by decide

end Dashboard

namespace Dashboard

/-! ## Helper lemmas -/

/-- A mean produced by `seriesMean` is a quotient of nonnegative casts. -/
theorem seriesMean_nonneg (xs : List (Option Nat)) (q : ℚ)
    (h : seriesMean xs = some q) : 0 ≤ q := by
  simp only [seriesMean] at h
  split at h
  · exact Option.noConfusion h
  · rw [Option.some.injEq] at h
    subst h
    positivity

/-- Universal-newline translation is the identity on carriage-return-free
content. -/
theorem universalNewlines_of_no_cr : ∀ l : List Char, '\r' ∉ l → universalNewlines l = l
  | [], _ => rfl
  | [c], h => by
    have hc : c ≠ '\r' := by intro e; exact h (by simp [e])
    simp [universalNewlines, hc]
  | c :: d :: rest, h => by
    have hc : c ≠ '\r' := by intro e; exact h (by simp [e])
    have hr : '\r' ∉ d :: rest := fun m => h (List.mem_cons_of_mem _ m)
    simp [universalNewlines, hc, universalNewlines_of_no_cr (d :: rest) hr]

/-! ## Claim C1 — trigger rates -/

/-- C1 counterexample: on the spec's 2-row scenario dataset the
detection predicates fire on exactly one row each, so the computed rate
is `50.0%` (`500` tenths), but the reported `preprocessing_stats` values
stay at the baked-in constants `47.2` and `46.7`. -/
theorem trigger_rate_counterexample :
    (preprocessing_stats scenarioRecords).lookup "Contractions" = some 472 ∧
    (preprocessing_stats scenarioRecords).lookup "Numbers" = some 467 ∧
    triggerRateTenths containsContraction
      (scenarioRecords.map PostRecord.original_selftext) = 500 ∧
    triggerRateTenths containsNumber
      (scenarioRecords.map PostRecord.original_selftext) = 500 ∧
    (472 : Nat) ≠ 500 ∧ (467 : Nat) ≠ 500 := by
  decide

/-- C1 (amended): the reported per-category trigger rates are literal
constants — Contractions 47.2%, Numbers 46.7%, Excessive Punctuation
18.8%, URLs 1.8% (in tenths of a percent) — independent of the loaded
dataset, not computed from the rows' original texts. -/
theorem preprocessing_stats_constant (df : List PostRecord) :
    preprocessing_stats df =
      [("Contractions", 472), ("Numbers", 467),
       ("Excessive Punctuation", 188), ("URLs", 18)] :=
  rfl

/-! ## Claim C2 — top-terms table -/

/-- C2 counterexample: the displayed top-terms table is not built from
the records' stemmed tokens: on the scenario dataset the accumulating
builder yields `[("cat", 1), ("know", 1)]`, while the page shows the
baked-in `word_freq` table. -/
theorem top_terms_counterexample :
    buildTopTerms 15 [["know"], ["cat"]] = [("cat", 1), ("know", 1)] ∧
    word_freq scenarioRecords ≠ [("cat", 1), ("know", 1)] := by
  decide

/-- C2 (amended): the displayed top-terms table is a literal constant of
15 entries, independent of the loaded dataset; it is ordered by
descending frequency with ties broken alphabetically (its counts happen
to be strictly decreasing). -/
theorem word_freq_constant (df : List PostRecord) :
    word_freq df =
      [("anxiety", 1447), ("feel", 1367), ("like", 1182), ("num", 1009),
       ("get", 754), ("know", 678), ("real", 612), ("want", 553),
       ("time", 537), ("think", 500), ("work", 480), ("would", 477),
       ("thing", 460), ("day", 457), ("help", 433)] ∧
    (word_freq df).length = 15 ∧
    sortedByB termOrder (word_freq df) = true :=
  ⟨rfl, rfl, rfl⟩

/-! ## Claim C3 — average token counts -/

/-- C3 counterexample: on a zero-row dataset the pandas means are `NaN`
(`none`), not `0.0` — the division is not guarded. -/
theorem avg_empty_counterexample :
    avg_original [] = none ∧ avg_processed [] = none ∧
    avg_original [] ≠ some 0 ∧ avg_processed [] ≠ some 0 := by
  decide

/-- C3 (amended): whenever an average token count is defined it is
nonnegative, and on a zero-row dataset no error is raised but both
averages are `NaN` (missing) rather than `0.0`. -/
theorem avg_tokens_nonneg :
    (∀ (rs : List PostRecord) (q : ℚ), avg_original rs = some q → 0 ≤ q) ∧
    (∀ (rs : List PostRecord) (q : ℚ), avg_processed rs = some q → 0 ≤ q) ∧
    avg_original [] = none ∧ avg_processed [] = none :=
  ⟨fun _ q h => seriesMean_nonneg _ q h,
   fun _ q h => seriesMean_nonneg _ q h,
   rfl, rfl⟩

/-- Witness for C3: a concrete 1-row dataset with a defined, nonnegative
average. -/
theorem avg_tokens_nonneg_witness :
    0 ≤ (((2 : Nat) : ℚ) / ((1 : Nat) : ℚ)) :=
  avg_tokens_nonneg.1 [{ original_selftext := some "a b", tokens_stemmed := some "a" }] _ rfl

/-! ## Claim C4 — per-row token counts -/

/-- C4 counterexample: for the stemmed-token field an absent cell yields
`NaN` (`none`), not `0` — line 166 has no `fillna`. -/
theorem processed_tokens_absent_counterexample :
    processed_tokens none = none ∧ processed_tokens none ≠ some 0 := by
  decide

/-- C4 (amended): the per-row count equals the number of
whitespace-separated tokens for both fields, and is `0` for empty or
absent original text and for empty stemmed text; but an absent
stemmed-token cell yields `NaN` (missing), not `0`.  No case fails. -/
theorem token_count_contract :
    (∀ c : Cell?, original_tokens c = (pySplit (c.getD "")).length) ∧
    original_tokens none = 0 ∧
    original_tokens (some "") = 0 ∧
    (∀ s : String, processed_tokens (some s) = some (pySplit s).length) ∧
    processed_tokens (some "") = some 0 ∧
    processed_tokens none = none :=
  ⟨fun _ => rfl, rfl, rfl, fun _ => rfl, rfl, rfl⟩

/-! ## Claim C5 — determinism -/

/-- C5: recomputing the metrics snapshot (post count, averages, trigger
rates, top terms) from the same loaded dataset yields identical output
in both runs. -/
theorem computeMetrics_deterministic (d₁ d₂ : List PostRecord) (h : d₁ = d₂) :
    computeMetrics d₁ = computeMetrics d₂ :=
  congrArg computeMetrics h

/-- Witness for C5: determinism at the scenario dataset. -/
theorem computeMetrics_deterministic_witness :
    computeMetrics scenarioRecords = computeMetrics scenarioRecords :=
  computeMetrics_deterministic scenarioRecords scenarioRecords rfl

/-! ## Claim C7 — download surface -/

/-- C7 counterexample: the CSV is read with `open(path, 'r')` in text
mode, so a file containing `"a\r\nb"` is served as `"a\nb"` — not
byte-for-byte identical to the file on disk. -/
theorem download_verbatim_counterexample :
    (csvDownload "a\r\nb").data = "a\nb" ∧
    (csvDownload "a\r\nb").data ≠ "a\r\nb" := by
  decide

/-- C7 (amended): the download surface serves the original input file
under the fixed name `anxiety_preprocessed.csv` after text-mode
universal-newline translation; the served data is identical to the
on-disk content exactly when that content contains no carriage
returns. -/
theorem csv_download_contract (onDisk : String) (h : '\r' ∉ onDisk.data) :
    (csvDownload onDisk).fileName = "anxiety_preprocessed.csv" ∧
    (csvDownload onDisk).data = onDisk := by
  refine ⟨rfl, ?_⟩
  show String.mk (universalNewlines onDisk.data) = onDisk
  rw [universalNewlines_of_no_cr onDisk.data h]

/-- Witness for C7: a carriage-return-free file is served unchanged. -/
theorem csv_download_contract_witness :
    (csvDownload "a,b\nc,d").fileName = "anxiety_preprocessed.csv" ∧
    (csvDownload "a,b\nc,d").data = "a,b\nc,d" :=
  csv_download_contract "a,b\nc,d" (by decide)

/-! ## Claim C9 — the two download buttons -/

/-- C9: the two download buttons serve character-for-character identical
content — both artifacts are read from the same file
`data/anxiety_preprocessed.csv` — under the names
`anxiety_preprocessed.csv` and `preprocessing_report.txt`. -/
theorem downloads_serve_identical_content (onDisk : String) :
    ((downloadPage onDisk).1).data = ((downloadPage onDisk).2).data ∧
    ((downloadPage onDisk).1).fileName = "anxiety_preprocessed.csv" ∧
    ((downloadPage onDisk).2).fileName = "preprocessing_report.txt" :=
  ⟨rfl, rfl, rfl⟩

end Dashboard

namespace Dashboard

/-! ## Claim C6 — dataset loading -/

/-- C6: the loader returns the ordered row sequence on success; a
missing/unreadable file or a tabular parse failure (row/column count
mismatch) yields the typed `DataUnavailable` error; a load error
propagates through `runApp`, so no metrics snapshot is produced on
failure. -/
theorem load_data_contract :
    load_data none = Except.error LoadError.dataUnavailable ∧
    runApp none = Except.error LoadError.dataUnavailable ∧
    (∀ f : CsvFile, (∀ r ∈ f.rows, r.length = f.header.length) →
      load_data (some f) = Except.ok (f.rows.map (toRecord f.header))) ∧
    (∀ f : CsvFile, (∃ r ∈ f.rows, r.length ≠ f.header.length) →
      load_data (some f) = Except.error LoadError.dataUnavailable) ∧
    (∀ (file : Option CsvFile) (e : LoadError), load_data file = Except.error e →
      runApp file = Except.error e) := by
  refine ⟨rfl, rfl, ?_, ?_, ?_⟩
  · intro f h
    have hall : (f.rows.all fun r => r.length = f.header.length) = true := by
      simp only [List.all_eq_true, decide_eq_true_eq]
      exact h
    simp [load_data, hall]
  · intro f hex
    rcases hex with ⟨r, hr, hne⟩
    have hall : (f.rows.all fun r => r.length = f.header.length) = false := by
      apply Bool.eq_false_iff.mpr
      intro hta
      rw [List.all_eq_true] at hta
      have h := hta r hr
      rw [decide_eq_true_eq] at h
      exact hne h
    simp [load_data, hall]
  · intro file e h
    unfold runApp
    rw [h]
    rfl

/-- Witness for C6: a concrete well-formed file loads to its ordered
records, and a concrete ragged file produces no metrics. -/
theorem load_data_contract_witness :
    load_data (some (CsvFile.mk ["original_selftext", "tokens_stemmed"]
        [[some "I don't know", some "know"], [some "I have 3 cats", some "cat"]])) =
      Except.ok scenarioRecords ∧
    runApp (some (CsvFile.mk ["original_selftext"] [[some "a", some "b"]])) =
      Except.error LoadError.dataUnavailable := by
  constructor
  · exact load_data_contract.2.2.1 (CsvFile.mk ["original_selftext", "tokens_stemmed"]
      [[some "I don't know", some "know"], [some "I have 3 cats", some "cat"]]) (by decide)
  · exact load_data_contract.2.2.2.2 (some (CsvFile.mk ["original_selftext"]
        [[some "a", some "b"]])) LoadError.dataUnavailable
      (load_data_contract.2.2.2.1 (CsvFile.mk ["original_selftext"] [[some "a", some "b"]])
        ⟨[some "a", some "b"], by decide, by decide⟩)

/-! ## Claims C8 and C10 — the frame of the token-column assignment -/

/-- A name that is not among the columns has no index. -/
theorem colIdx_eq_none (cols : List String) (c : String) (h : c ∉ cols) :
    colIdx cols c = none := by
  induction cols with
  | nil => rfl
  | cons c0 rest ih =>
    have h0 : ¬ c0 = c := fun e => h (by rw [e]; exact List.mem_cons_self c rest)
    have h1 : c ∉ rest := fun m => h (List.mem_cons_of_mem c0 m)
    simp [colIdx, h0, ih h1]

/-- Appending columns on the right does not move an existing column. -/
theorem colIdx_append_left (cols cols2 : List String) (c : String) (h : c ∈ cols) :
    colIdx (cols ++ cols2) c = colIdx cols c := by
  induction cols with
  | nil => cases h
  | cons c0 rest ih =>
    by_cases h0 : c0 = c
    · simp [colIdx, h0]
    · have h1 : c ∈ rest := by
        cases h with
        | head => exact absurd rfl h0
        | tail _ m => exact m
      simp [colIdx, h0, ih h1]

/-- A column index is within the column count. -/
theorem colIdx_lt_length (cols : List String) (c : String) (i : Nat)
    (h : colIdx cols c = some i) : i < cols.length := by
  induction cols generalizing i with
  | nil => exact Option.noConfusion h
  | cons c0 rest ih =>
    by_cases h0 : c0 = c
    · simp only [colIdx] at h
      rw [if_pos h0] at h
      injection h with h'
      subst h'
      exact Nat.succ_pos _
    · simp only [colIdx] at h
      rw [if_neg h0, Option.map_eq_some'] at h
      obtain ⟨j, hj, hji⟩ := h
      subst hji
      exact Nat.succ_lt_succ (ih j hj)

/-- A present column has an index. -/
theorem colIdx_mem_isSome (cols : List String) (c : String) (h : c ∈ cols) :
    ∃ i, colIdx cols c = some i := by
  induction cols with
  | nil => cases h
  | cons c0 rest ih =>
    by_cases h0 : c0 = c
    · exact ⟨0, by simp [colIdx, h0]⟩
    · have h1 : c ∈ rest := by
        cases h with
        | head => exact absurd rfl h0
        | tail _ m => exact m
      obtain ⟨i, hi⟩ := ih h1
      exact ⟨i + 1, by simp [colIdx, h0, hi]⟩

/-- When the two token columns are new, the assignment appends them on
the right and extends every row by the two derived cells. -/
theorem addTokenColumns_eq (df : DataFrame)
    (h1 : "original_tokens" ∉ df.columns)
    (h2 : "processed_tokens" ∉ df.columns) :
    addTokenColumns df =
      { columns := df.columns ++ ["original_tokens", "processed_tokens"]
        rows := df.rows.map (fun r =>
          (r ++ [origTokCell df.columns r]) ++
            [procTokCell (df.columns ++ ["original_tokens"])
              (r ++ [origTokCell df.columns r])]) } := by
  have e1 : colIdx df.columns "original_tokens" = none := colIdx_eq_none _ _ h1
  have h2' : "processed_tokens" ∉ df.columns ++ ["original_tokens"] := by
    intro m
    rcases List.mem_append.mp m with m1 | m2
    · exact h2 m1
    · simp at m2
  have e2 : colIdx (df.columns ++ ["original_tokens"]) "processed_tokens" = none :=
    colIdx_eq_none _ _ h2'
  simp [addTokenColumns, DataFrame.assignCol, e1, e2, List.map_map, Function.comp,
    List.append_assoc]

/-- C10: under the loaded table's shape (well-formed rows, token columns
not yet present), computing the per-row token counts appends exactly the
two columns `original_tokens` and `processed_tokens` and leaves every
pre-existing column of every row unchanged. -/
theorem addTokenColumns_frame (df : DataFrame)
    (hwf : ∀ r ∈ df.rows, r.length = df.columns.length)
    (h1 : "original_tokens" ∉ df.columns)
    (h2 : "processed_tokens" ∉ df.columns) :
    (addTokenColumns df).columns = df.columns ++ ["original_tokens", "processed_tokens"] ∧
    ∀ c ∈ df.columns, (addTokenColumns df).getCol? c = df.getCol? c := by
  rw [addTokenColumns_eq df h1 h2]
  refine ⟨rfl, ?_⟩
  intro c hc
  obtain ⟨i, hi⟩ := colIdx_mem_isSome df.columns c hc
  have hilt : i < df.columns.length := colIdx_lt_length _ _ _ hi
  have hmem1 : c ∈ df.columns ++ ["original_tokens"] := List.mem_append_left _ hc
  have eidx : colIdx (df.columns ++ ["original_tokens", "processed_tokens"]) c = some i := by
    have hsplit : df.columns ++ ["original_tokens", "processed_tokens"]
        = (df.columns ++ ["original_tokens"]) ++ ["processed_tokens"] := by
      simp
    rw [hsplit, colIdx_append_left _ _ _ hmem1, colIdx_append_left _ _ _ hc, hi]
  simp only [DataFrame.getCol?, eidx, hi, Option.map_some']
  congr 1
  rw [List.map_map]
  apply List.map_congr_left
  intro r hr
  have hlen : r.length = df.columns.length := hwf r hr
  simp only [Function.comp_apply]
  rw [List.getD_append _ _ _ _ (by simp [hlen]; omega),
    List.getD_append _ _ _ _ (by omega)]

/-- Witness for C10: the frame property at a concrete 2-column table. -/
theorem addTokenColumns_frame_witness :
    (addTokenColumns sampleDf).columns =
      sampleDf.columns ++ ["original_tokens", "processed_tokens"] ∧
    (addTokenColumns sampleDf).getCol? "original_selftext" =
      sampleDf.getCol? "original_selftext" :=
  ⟨(addTokenColumns_frame sampleDf (by decide) (by decide) (by decide)).1,
   (addTokenColumns_frame sampleDf (by decide) (by decide) (by decide)).2
     "original_selftext" (by decide)⟩

/-- Extending every row on the right leaves the first `j` cells of every
(possibly out-of-range) row unchanged. -/
theorem getD_getD_map_append (rows : List (List DfCell))
    (f g : List DfCell → DfCell) (i j : Nat) (hj : ∀ r ∈ rows, j < r.length) :
    ((rows.map (fun r => (r ++ [f r]) ++ [g (r ++ [f r])])).getD i []).getD j DfCell.na =
      (rows.getD i []).getD j DfCell.na := by
  induction rows generalizing i with
  | nil => rfl
  | cons r rest ih =>
    cases i with
    | zero =>
      show ((r ++ [f r]) ++ [g (r ++ [f r])]).getD j DfCell.na = r.getD j DfCell.na
      have hjr : j < r.length := hj r (List.mem_cons_self _ _)
      rw [List.getD_append _ _ _ _ (by simp; omega), List.getD_append _ _ _ _ hjr]
    | succ i' =>
      exact ih i' (fun r' hr' => hj r' (List.mem_cons_of_mem _ hr'))

/-- C8 counterexample: the loaded dataset is not read-only after load —
rendering the Statistics page changes the loaded table. -/
theorem dataset_not_readonly_counterexample :
    addTokenColumns sampleDf ≠ sampleDf := by
  decide

/-- C8 (amended): loading is pure, but the record table is not read-only
afterwards: the Statistics page mutates it by appending the two derived
token-count columns.  The mutation is limited to that — the row count
and every pre-existing cell are unchanged. -/
theorem statistics_page_mutates_table (df : DataFrame)
    (hwf : ∀ r ∈ df.rows, r.length = df.columns.length)
    (h1 : "original_tokens" ∉ df.columns)
    (h2 : "processed_tokens" ∉ df.columns) :
    addTokenColumns df ≠ df ∧
    (addTokenColumns df).columns.length = df.columns.length + 2 ∧
    (addTokenColumns df).rows.length = df.rows.length ∧
    ∀ i j, j < df.columns.length →
      ((addTokenColumns df).rows.getD i []).getD j DfCell.na =
        (df.rows.getD i []).getD j DfCell.na := by
  rw [addTokenColumns_eq df h1 h2]
  refine ⟨?_, by simp, by simp, ?_⟩
  · intro e
    have h3 := congrArg (fun d => d.columns.length) e
    simp only [List.length_append, List.length_cons, List.length_nil] at h3
    omega
  · intro i j hj
    exact getD_getD_map_append df.rows (origTokCell df.columns)
      (procTokCell (df.columns ++ ["original_tokens"])) i j
      (fun r hr => by rw [hwf r hr]; exact hj)

/-- Witness for C8: the mutation at a concrete 2-column table. -/
theorem statistics_page_mutates_table_witness :
    addTokenColumns sampleDf ≠ sampleDf :=
  (statistics_page_mutates_table sampleDf (by decide) (by decide) (by decide)).1

end Dashboard
